import Mathlib

/-!
Verification development for the reservation core of the Smarthack_PinguWin
backend (`backend/app/services/booking.py`, `backend/app/routes/bookings.py`,
`backend/app/models/space.py`).

Modelling conventions:
* Time instants (`datetime`) are modelled as natural numbers counting minutes
  from midnight of an arbitrary day 0; day `d` covers minutes
  `[d*1440, (d+1)*1440)`.  `datetime.combine(date, time.min)` is `d*1440` and
  `datetime.combine(date, time.max)` (23:59:59.999999) is, at minute
  granularity, `d*1440 + 1439`.
* Slot labels `"HH:MM"` are modelled by the injective encoding
  `60*HH + MM` (minute of day); `current_time.hour`/`.minute` of an absolute
  minute `t` is `t % 1440` under this encoding.
* `resource_type` values travel as strings, as in the Python service layer;
  the Pydantic `BookingResourceType` enum restricts them to `"desk"`/`"room"`,
  which appears as an explicit hypothesis where it matters.
* The SQLAlchemy session is modelled as an explicit in-memory database `DB`;
  a query filter `Booking.desk_id == x` follows SQL NULL semantics: a row with
  `desk_id` NULL never matches, i.e. `Option.some`-equality.
* Python truthiness of `Optional[int]` values (`if exclude_booking_id:`,
  `"desk" if self.desk_id else "room"`) is modelled by `truthyOpt`:
  `none` and `some 0` are falsy.
-/

/-- `models/space.py` class `Type` (table `type`).  Named `TypeModel` because
`Type` is a Lean keyword. -/
structure TypeModel where
  type_id : Nat
  type_name : String
  approval : Bool
deriving Repr, DecidableEq

/-- `models/space.py` class `Room` (table `room`).  The `room_type`
relationship may be unloaded/absent, hence `Option`, matching the null guard
`resource.room_type and resource.room_type.approval` in the service. -/
structure Room where
  room_id : Nat
  name : String
  capacity : Nat
  occupied : Bool
  room_type : Option TypeModel
deriving Repr, DecidableEq

/-- `models/space.py` class `Desk` (table `desk`). -/
structure Desk where
  desk_id : Nat
  position_name : String
  occupied : Bool
deriving Repr, DecidableEq

/-- `models/space.py` class `Booking` (table `booking`): times in minutes,
`desk_id`/`room_id` nullable foreign keys. -/
structure Booking where
  booking_id : Nat
  start_time : Nat
  end_time : Nat
  pending : Bool
  user_id : Nat
  desk_id : Option Nat
  room_id : Option Nat
deriving Repr, DecidableEq

/-- The persistent state visible to `BookingService`: the three tables the
booking code touches plus the autoincrement counter for booking primary keys. -/
structure DB where
  desks : List Desk
  rooms : List Room
  bookings : List Booking
  next_booking_id : Nat
deriving Repr, DecidableEq

/-- `schemas/booking.py` `BookingCreate` (resource_type is the enum value as a
string; Pydantic guarantees it is `"desk"` or `"room"` and `resource_id > 0`). -/
structure BookingCreate where
  resource_type : String
  resource_id : Nat
  start_time : Nat
  end_time : Nat
deriving Repr, DecidableEq

/-- `schemas/booking.py` `BookingUpdate`: all fields optional; absent fields
are not applied (`model_dump(exclude_unset=True)`). -/
structure BookingUpdate where
  start_time : Option Nat
  end_time : Option Nat
  pending : Option Bool
deriving Repr, DecidableEq

/-- The HTTP error outcomes raised by the service and routes
(`HTTPException` status codes). -/
inductive ApiError where
  | notFound404
  | conflict409
  | forbidden403
  | badRequest400
  | internal500
deriving Repr, DecidableEq

/-- `schemas/booking.py` `AvailabilityResponse` (slot lists under the
minute-of-day encoding of `"HH:MM"` labels). -/
structure AvailabilityResponse where
  resource_type : String
  resource_id : Nat
  resource_name : String
  date : Nat
  all_slots : List Nat
  booked_slots : List Nat
  available_slots : List Nat
deriving Repr, DecidableEq

/-- Python truthiness of an `Optional[int]`: `None` and `0` are falsy. -/
def truthyOpt (o : Option Nat) : Bool :=
  match o with
  | some n => n != 0
  | none => false

/-- `Booking.resource_type` property (`models/space.py`):
`"desk" if self.desk_id else "room"`. -/
def Booking.resourceTypeProp (b : Booking) : String :=
  if truthyOpt b.desk_id then "desk" else "room"

/-- `Booking.resource_id` property (`models/space.py`):
`self.desk_id if self.desk_id else self.room_id` (may be `None`). -/
def Booking.resourceIdProp (b : Booking) : Option Nat :=
  if truthyOpt b.desk_id then b.desk_id else b.room_id

/-- `BookingService.get_desk_by_id`: first row with the given primary key. -/
def get_desk_by_id (db : DB) (desk_id : Nat) : Option Desk :=
  db.desks.find? (fun d => d.desk_id == desk_id)

/-- `BookingService.get_room_by_id`. -/
def get_room_by_id (db : DB) (room_id : Nat) : Option Room :=
  db.rooms.find? (fun r => r.room_id == room_id)

/-- `BookingService.get_booking_by_id`. -/
def get_booking_by_id (db : DB) (booking_id : Nat) : Option Booking :=
  db.bookings.find? (fun b => b.booking_id == booking_id)

/-- The resource-match filter used by both the conflict query and the
availability query:
`Booking.desk_id == resource_id if resource_type == "desk" else Booking.room_id == resource_id`.
SQL NULL semantics: a NULL column never equals an integer. -/
def matchesResource (resource_type : String) (resource_id : Nat) (b : Booking) : Bool :=
  if resource_type == "desk" then b.desk_id == some resource_id
  else b.room_id == some resource_id

/-- The three-branch overlap disjunction of
`BookingService.check_booking_conflict`: starts during, ends during, or
encompasses the candidate `[start_time, end_time)`. -/
def overlapsBranches (start_time end_time : Nat) (b : Booking) : Bool :=
  (decide (b.start_time ≥ start_time) && decide (b.start_time < end_time)) ||
  (decide (b.end_time > start_time) && decide (b.end_time ≤ end_time)) ||
  (decide (b.start_time ≤ start_time) && decide (b.end_time ≥ end_time))

/-- `BookingService.check_booking_conflict`.  The exclusion filter is applied
under Python truthiness (`if exclude_booking_id:`): no filter for `None` or
`0`. -/
def check_booking_conflict (db : DB) (resource_type : String) (resource_id : Nat)
    (start_time end_time : Nat) (exclude_booking_id : Option Nat) : Bool :=
  let conflicts := db.bookings.filter (fun b =>
    overlapsBranches start_time end_time b && matchesResource resource_type resource_id b)
  let conflicts :=
    if truthyOpt exclude_booking_id then
      conflicts.filter (fun b => b.booking_id != exclude_booking_id.getD 0)
    else conflicts
  decide (conflicts.length > 0)

/-- The tail of `BookingService.create_booking`: construct the `Booking` row
with the autoincremented primary key and commit it. -/
def finishCreate (db : DB) (user_id : Nat) (booking_data : BookingCreate)
    (pending : Bool) : Except ApiError Booking × DB :=
  let booking : Booking :=
    { booking_id := db.next_booking_id
      start_time := booking_data.start_time
      end_time := booking_data.end_time
      pending := pending
      user_id := user_id
      desk_id := if booking_data.resource_type == "desk" then some booking_data.resource_id else none
      room_id := if booking_data.resource_type == "room" then some booking_data.resource_id else none }
  (.ok booking,
   { db with bookings := db.bookings ++ [booking]
             next_booking_id := db.next_booking_id + 1 })

/-- `BookingService.create_booking`: resolve the resource (404 if absent),
run the conflict check (409 on conflict), compute the approval-pending flag
(only for rooms whose loaded type has `approval`), then insert.  Error
outcomes leave the database unchanged (the exception is raised before
`db.add`/`commit`). -/
def create_booking (db : DB) (user_id : Nat) (booking_data : BookingCreate) :
    Except ApiError Booking × DB :=
  if booking_data.resource_type == "desk" then
    match get_desk_by_id db booking_data.resource_id with
    | none => (.error .notFound404, db)
    | some _ =>
      if check_booking_conflict db booking_data.resource_type booking_data.resource_id
          booking_data.start_time booking_data.end_time none then
        (.error .conflict409, db)
      else
        finishCreate db user_id booking_data false
  else
    match get_room_by_id db booking_data.resource_id with
    | none => (.error .notFound404, db)
    | some resource =>
      if check_booking_conflict db booking_data.resource_type booking_data.resource_id
          booking_data.start_time booking_data.end_time none then
        (.error .conflict409, db)
      else
        let pending := booking_data.resource_type == "room" &&
          (match resource.room_type with
           | some t => t.approval
           | none => false)
        finishCreate db user_id booking_data pending

/-- Field application of `BookingService.update_booking`: present fields of
the `BookingUpdate` payload overwrite the row (`setattr`). -/
def applyUpdate (b : Booking) (u : BookingUpdate) : Booking :=
  { b with
    start_time := u.start_time.getD b.start_time
    end_time := u.end_time.getD b.end_time
    pending := u.pending.getD b.pending }

/-- `BookingService.update_booking`: fetch by id (`None` result if absent),
apply the payload fields, commit.  No conflict check is performed; the booking
table has no overlap constraint, so the commit succeeds. -/
def update_booking (db : DB) (booking_id : Nat) (booking_data : BookingUpdate) :
    Option Booking × DB :=
  match get_booking_by_id db booking_id with
  | none => (none, db)
  | some booking =>
    let updated := applyUpdate booking booking_data
    (some updated,
     { db with bookings := db.bookings.map (fun b =>
         if b.booking_id == booking_id then updated else b) })

/-- `BookingService.cancel_booking`: fetch by id (`False` if absent), delete
the row, commit, return `True`. -/
def cancel_booking (db : DB) (booking_id : Nat) : Bool × DB :=
  match get_booking_by_id db booking_id with
  | none => (false, db)
  | some _ =>
    (true, { db with bookings := db.bookings.filter (fun b => b.booking_id != booking_id) })

/-- Route `DELETE /bookings/{booking_id}` (`routes/bookings.py`
`cancel_booking`): 404 if the booking does not exist, 403 if the caller
neither owns it nor is an admin, 500 if the service reports failure,
otherwise 204 (modelled as `.ok` with the new state). -/
def cancel_booking_route (db : DB) (current_user_id : Nat) (is_admin : Bool)
    (booking_id : Nat) : Except ApiError DB :=
  match get_booking_by_id db booking_id with
  | none => .error .notFound404
  | some booking =>
    if booking.user_id != current_user_id && !is_admin then .error .forbidden403
    else
      let r := cancel_booking db booking_id
      if r.1 then .ok r.2 else .error .internal500

/-- Operating window of `get_availability`: `start_hour = 8`. -/
def start_hour : Nat := 8

/-- Operating window of `get_availability`: `end_hour = 20`. -/
def end_hour : Nat := 20

/-- The full slot grid of `get_availability`: for each hour in
`[start_hour, end_hour)` the labels `HH:00` and `HH:30`, chronologically,
under the minute-of-day encoding. -/
def all_slots : List Nat :=
  (List.range (end_hour - start_hour)).flatMap
    (fun i => [(start_hour + i) * 60, (start_hour + i) * 60 + 30])

/-- One fuel-indexed step of the slot-marking loop of `get_availability`:
`current_time` advances in 30-minute steps while `current_time < booking_end`;
each step's `HH:MM` label (minute of day, `current % 1440`) is marked booked
only when it occurs verbatim in the grid. -/
def slotWalkAux : Nat → Nat → Nat → List Nat
  | 0, _, _ => []
  | fuel + 1, current, endT =>
    if current < endT then
      (if (current % 1440) ∈ all_slots then [current % 1440] else []) ++
        slotWalkAux fuel (current + 30) endT
    else []

/-- The slot-marking loop of `get_availability` for one booking.  The loop
runs at most `⌈(endT - current) / 30⌉ ≤ endT - current` iterations, so the
fuel `endT - current` never runs out: this equals the unbounded `while`
loop of the source. -/
def slotWalk (current endT : Nat) : List Nat :=
  slotWalkAux (endT - current) current endT

/-- The booking query of `get_availability`: rows matching the resource with
`start_time >= start_of_day` and `end_time <= end_of_day`, where
`end_of_day` is 23:59:59.999999, i.e. minute `d*1440 + 1439` at minute
granularity. -/
def bookingsForDay (db : DB) (resource_type : String) (resource_id : Nat)
    (check_date : Nat) : List Booking :=
  db.bookings.filter (fun b =>
    matchesResource resource_type resource_id b &&
    decide (b.start_time ≥ check_date * 1440) &&
    decide (b.end_time ≤ check_date * 1440 + 1439))

/-- Insertion into an ascending list, used to model `sorted(...)`. -/
def insertAsc (x : Nat) (l : List Nat) : List Nat :=
  match l with
  | [] => [x]
  | y :: ys => if x ≤ y then x :: y :: ys else y :: insertAsc x ys

/-- Insertion sort over `Nat`, used to model Python's `sorted`. -/
def sortAsc (l : List Nat) : List Nat :=
  l.foldr insertAsc []

/-- `BookingService.get_availability`: resolve the resource name (placeholder
`desk-{id}` / `room-{id}` when the resource is absent — no 404), build the
grid, fetch the day's fully-contained bookings, mark slots via the walking
loop into a set, and partition the grid.  `booked_slots = sorted(list(set))`
is modelled as sort-of-dedup. -/
def get_availability (db : DB) (resource_type : String) (resource_id : Nat)
    (check_date : Nat) : AvailabilityResponse :=
  let resource_name :=
    if resource_type == "desk" then
      match get_desk_by_id db resource_id with
      | some d => d.position_name
      | none => "desk-" ++ toString resource_id
    else
      match get_room_by_id db resource_id with
      | some r => r.name
      | none => "room-" ++ toString resource_id
  let bookings := bookingsForDay db resource_type resource_id check_date
  let booked_slots := sortAsc (bookings.flatMap (fun b => slotWalk b.start_time b.end_time)).dedup
  { resource_type := resource_type
    resource_id := resource_id
    resource_name := resource_name
    date := check_date
    all_slots := all_slots
    booked_slots := booked_slots
    available_slots := all_slots.filter (fun s => !(booked_slots.contains s)) }

/-- Route `GET /bookings/availability/{resource_type}/{resource_id}`
(`routes/bookings.py` `check_availability`): 400 for an unrecognised kind,
otherwise the service response verbatim — there is no 404 path. -/
def check_availability (db : DB) (resource_type : String) (resource_id : Nat)
    (check_date : Nat) : Except ApiError AvailabilityResponse :=
  if resource_type != "desk" && resource_type != "room" then
    .error .badRequest400
  else
    .ok (get_availability db resource_type resource_id check_date)

/-- Whether the referenced resource exists, as `create_booking` resolves it
(desk table for `"desk"`, room table otherwise). -/
def resource_exists (db : DB) (resource_type : String) (resource_id : Nat) : Bool :=
  if resource_type == "desk" then (get_desk_by_id db resource_id).isSome
  else (get_room_by_id db resource_id).isSome

/-- The spec's "requires approval" attribute of the resolved resource
(`Room.to_dict`: `room_type.approval if room_type else False`; desks never
require approval). -/
def requires_approval (db : DB) (resource_type : String) (resource_id : Nat) : Bool :=
  if resource_type == "desk" then false
  else
    match get_room_by_id db resource_id with
    | some r =>
      match r.room_type with
      | some t => t.approval
      | none => false
    | none => false

/-- Store invariant: every booking row has a positive primary key (SQL
autoincrement) and a well-formed half-open interval (`start < end`, enforced
at the schema boundary on creation). -/
abbrev WellFormedDB (db : DB) : Prop :=
  ∀ b ∈ db.bookings, 0 < b.booking_id ∧ b.start_time < b.end_time

/-! Concrete fixtures used by witnesses and counterexamples. -/

/-- A desk with id 1. -/
def deskA : Desk := { desk_id := 1, position_name := "D1", occupied := false }

/-- A room type that requires approval. -/
def typeMeeting : TypeModel := { type_id := 1, type_name := "meeting", approval := true }

/-- A room (id 5) whose type requires approval. -/
def roomA : Room :=
  { room_id := 5, name := "R5", capacity := 4, occupied := false, room_type := some typeMeeting }

/-- Booking id 1 on desk 1, `[09:00, 10:00)`. -/
def bookingA : Booking :=
  { booking_id := 1, start_time := 540, end_time := 600, pending := false,
    user_id := 7, desk_id := some 1, room_id := none }

/-- Booking id 2 on desk 1, `[10:00, 11:00)` (back-to-back with `bookingA`). -/
def bookingB : Booking :=
  { booking_id := 2, start_time := 600, end_time := 660, pending := false,
    user_id := 7, desk_id := some 1, room_id := none }

/-- Booking id 1 on desk 1, `[09:15, 09:45)` (not aligned to the 30-minute grid). -/
def bkg555 : Booking :=
  { booking_id := 1, start_time := 555, end_time := 585, pending := false,
    user_id := 7, desk_id := some 1, room_id := none }

/-- Booking id 1 on desk 1 spanning midnight: day 0 `23:00` to day 1 `09:00`. -/
def bkgCross : Booking :=
  { booking_id := 1, start_time := 1380, end_time := 1980, pending := false,
    user_id := 7, desk_id := some 1, room_id := none }

/-- Database with desk 1 and the single booking `bookingA`. -/
def dbA : DB := { desks := [deskA], rooms := [], bookings := [bookingA], next_booking_id := 2 }

/-- Database with desk 1 and the two back-to-back bookings. -/
def dbTwo : DB :=
  { desks := [deskA], rooms := [], bookings := [bookingA, bookingB], next_booking_id := 3 }

/-- Database with desk 1 and no bookings. -/
def dbEmpty : DB := { desks := [deskA], rooms := [], bookings := [], next_booking_id := 1 }

/-- Database with desk 1 and the misaligned booking `bkg555`. -/
def db555 : DB := { desks := [deskA], rooms := [], bookings := [bkg555], next_booking_id := 2 }

/-- Database with desk 1 and the cross-midnight booking `bkgCross`. -/
def dbCross : DB := { desks := [deskA], rooms := [], bookings := [bkgCross], next_booking_id := 2 }

/-- Database with no desks, no rooms, no bookings. -/
def dbNoResources : DB := { desks := [], rooms := [], bookings := [], next_booking_id := 1 }

/-- Database with only the approval-gated room `roomA`. -/
def dbRoom : DB := { desks := [], rooms := [roomA], bookings := [], next_booking_id := 1 }

/-- Creation request: desk 1, `[09:00, 09:30)`. -/
def bcA : BookingCreate :=
  { resource_type := "desk", resource_id := 1, start_time := 540, end_time := 570 }

/-- Creation request: desk 1, `[09:15, 09:45)` (overlaps `bcA`). -/
def bcB : BookingCreate :=
  { resource_type := "desk", resource_id := 1, start_time := 555, end_time := 585 }

/-- Creation request: room 5, `[09:00, 10:00)`. -/
def bcRoom : BookingCreate :=
  { resource_type := "room", resource_id := 5, start_time := 540, end_time := 600 }

/-- The row `create_booking dbEmpty 7 bcA` inserts. -/
def bkCreatedA : Booking :=
  { booking_id := 1, start_time := 540, end_time := 570, pending := false,
    user_id := 7, desk_id := some 1, room_id := none }

/-- The database after successfully creating `bcA` in `dbEmpty`. -/
def dbAfterA : DB := (create_booking dbEmpty 7 bcA).2

/-- The row `create_booking dbRoom 3 bcRoom` inserts (pending, since room 5
requires approval). -/
def bkCreatedRoom : Booking :=
  { booking_id := 1, start_time := 540, end_time := 600, pending := true,
    user_id := 3, desk_id := none, room_id := some 5 }

/-! Helper lemmas. -/

/-- A filter has positive length exactly when some element satisfies the
predicate. -/
theorem filter_length_pos {α : Type} (l : List α) (p : α → Bool) :
    0 < (l.filter p).length ↔ ∃ a ∈ l, p a = true := by
  induction l with
  | nil => simp
  | cons x xs ih =>
    by_cases h : p x = true
    · simp [List.filter_cons, h]
    · simp only [List.filter_cons, if_neg h, ih]
      simp [h]

/-- The three-branch conflict disjunction agrees with the unified half-open
overlap inequality on well-formed intervals. -/
theorem overlapsBranches_iff (s e : Nat) (b : Booking)
    (hse : s < e) (hwf : b.start_time < b.end_time) :
    overlapsBranches s e b = true ↔ (s < b.end_time ∧ b.start_time < e) := by
  simp only [overlapsBranches, Bool.or_eq_true, Bool.and_eq_true, decide_eq_true_eq]
  omega

/-- The unified overlap inequality always triggers one of the three branches
(no well-formedness needed in this direction). -/
theorem overlap_implies_branches (s e : Nat) (b : Booking)
    (h1 : s < b.end_time) (h2 : b.start_time < e) :
    overlapsBranches s e b = true := by
  simp only [overlapsBranches, Bool.or_eq_true, Bool.and_eq_true, decide_eq_true_eq]
  omega

/-- Unfolding of `check_booking_conflict` as an existential over the stored
rows, with the Python-truthiness exclusion semantics made explicit. -/
theorem check_booking_conflict_iff (db : DB) (rt : String) (rid s e : Nat)
    (ex : Option Nat) :
    check_booking_conflict db rt rid s e ex = true ↔
      ∃ b ∈ db.bookings, overlapsBranches s e b = true ∧
        matchesResource rt rid b = true ∧
        (truthyOpt ex = true → b.booking_id ≠ ex.getD 0) := by
  simp only [check_booking_conflict, decide_eq_true_eq, gt_iff_lt]
  by_cases h : truthyOpt ex = true
  · rw [if_pos h, filter_length_pos]
    constructor
    · rintro ⟨b, hb, hq⟩
      rw [List.mem_filter] at hb
      obtain ⟨hb, hp⟩ := hb
      rw [Bool.and_eq_true] at hp
      exact ⟨b, hb, hp.1, hp.2, fun _ => by simpa using hq⟩
    · rintro ⟨b, hb, hov, hm, hex⟩
      refine ⟨b, ?_, ?_⟩
      · rw [List.mem_filter]
        exact ⟨hb, by rw [Bool.and_eq_true]; exact ⟨hov, hm⟩⟩
      · simpa using hex h
  · rw [if_neg h, filter_length_pos]
    constructor
    · rintro ⟨b, hb, hp⟩
      rw [Bool.and_eq_true] at hp
      exact ⟨b, hb, hp.1, hp.2, fun ht => absurd ht h⟩
    · rintro ⟨b, hb, hov, hm, _⟩
      exact ⟨b, hb, by rw [Bool.and_eq_true]; exact ⟨hov, hm⟩⟩

/-- C1: for every resource, candidate half-open interval `[s,e)` with
`s < e`, and optional excluded id, `check_booking_conflict` returns `true`
iff some stored reservation on the same resource, other than the excluded
one, satisfies `s < end' ∧ start' < e`; the three-branch test is thus
equivalent to the unified inequality, so back-to-back intervals are never
flagged. -/
theorem c1_conflict_check_iff_unified_overlap (db : DB) (resource_type : String)
    (resource_id s e : Nat) (exclude : Option Nat)
    (hse : s < e) (hdb : WellFormedDB db) :
    check_booking_conflict db resource_type resource_id s e exclude = true ↔
      ∃ b ∈ db.bookings, matchesResource resource_type resource_id b = true ∧
        (∀ i, exclude = some i → b.booking_id ≠ i) ∧
        s < b.end_time ∧ b.start_time < e := by
  rw [check_booking_conflict_iff]
  constructor
  · rintro ⟨b, hb, hov, hm, hex⟩
    obtain ⟨hid, hwf⟩ := hdb b hb
    refine ⟨b, hb, hm, ?_, (overlapsBranches_iff s e b hse hwf).mp hov⟩
    intro i hi
    subst hi
    by_cases h0 : i = 0
    · subst h0; omega
    · have := hex (by simp [truthyOpt, h0])
      simpa using this
  · rintro ⟨b, hb, hm, hex, h1, h2⟩
    refine ⟨b, hb, overlap_implies_branches s e b h1 h2, hm, ?_⟩
    intro ht
    cases exclude with
    | none => simp [truthyOpt] at ht
    | some i => simpa using hex i rfl

/-- Witness for C1: in `dbA` (one booking `[09:00,10:00)` on desk 1) the
candidate `[10:00,11:00)` instantiates the equivalence; both sides are false
there, so the back-to-back interval is not flagged. -/
theorem c1_witness :
    check_booking_conflict dbA "desk" 1 600 660 none = true ↔
      ∃ b ∈ dbA.bookings, matchesResource "desk" 1 b = true ∧
        (∀ i, (none : Option Nat) = some i → b.booking_id ≠ i) ∧
        600 < b.end_time ∧ b.start_time < 660 :=
  c1_conflict_check_iff_unified_overlap dbA "desk" 1 600 660 none (by decide) (by decide)

/-- C2: when the candidate interval overlaps a stored reservation on the same
(existing) resource, `create_booking` fails with the 409 conflict error and
the database is unchanged. -/
theorem c2_create_conflict_rejected (db : DB) (user_id : Nat) (bd : BookingCreate)
    (hres : resource_exists db bd.resource_type bd.resource_id = true)
    (b : Booking) (hb : b ∈ db.bookings)
    (hm : matchesResource bd.resource_type bd.resource_id b = true)
    (h1 : bd.start_time < b.end_time) (h2 : b.start_time < bd.end_time) :
    create_booking db user_id bd = (.error .conflict409, db) := by
  have hconf : check_booking_conflict db bd.resource_type bd.resource_id
      bd.start_time bd.end_time none = true := by
    rw [check_booking_conflict_iff]
    exact ⟨b, hb, overlap_implies_branches _ _ _ h1 h2, hm,
      fun ht => by simp [truthyOpt] at ht⟩
  unfold create_booking
  unfold resource_exists at hres
  by_cases hk : (bd.resource_type == "desk") = true
  · rw [if_pos hk] at hres ⊢
    cases hd : get_desk_by_id db bd.resource_id with
    | none => rw [hd] at hres; simp at hres
    | some d => simp [hd, hconf]
  · rw [if_neg hk] at hres ⊢
    cases hr : get_room_by_id db bd.resource_id with
    | none => rw [hr] at hres; simp at hres
    | some r => simp [hr, hconf]

/-- Witness for C2: creating `[09:00,09:30)` on desk 1 and then attempting
`[09:15,09:45)` on the same desk yields the conflict error with the store
unchanged. -/
theorem c2_witness :
    create_booking dbAfterA 7 bcB = (.error .conflict409, dbAfterA) :=
  c2_create_conflict_rejected dbAfterA 7 bcB (by decide) bkCreatedA
    (by decide) (by decide) (by decide) (by decide)

/-- Counterexample for C3: in `dbTwo` (desk 1 holds `[09:00,10:00)` and
`[10:00,11:00)`), updating booking 2's interval to `[09:15,09:45)` — which
overlaps booking 1, as re-running the conflict checker with booking 2
excluded confirms — is committed successfully with the new interval, instead
of being rejected with a conflict error. -/
theorem c3_counterexample :
    (update_booking dbTwo 2
        { start_time := some 555, end_time := some 585, pending := none }).1 =
      some { booking_id := 2, start_time := 555, end_time := 585, pending := false,
             user_id := 7, desk_id := some 1, room_id := none } ∧
    { booking_id := 2, start_time := 555, end_time := 585, pending := false,
      user_id := 7, desk_id := some 1, room_id := none } ∈
      (update_booking dbTwo 2
        { start_time := some 555, end_time := some 585, pending := none }).2.bookings ∧
    check_booking_conflict dbTwo "desk" 1 555 585 (some 2) = true := by decide

/-- C3 (amended): `update_booking` never re-runs the conflict checker: when
the reservation exists, any update — including an interval change that
overlaps another reservation on the same resource — is committed
unconditionally, and the stored row takes the new interval. -/
theorem c3_amended_update_skips_conflict_check (db : DB) (booking_id : Nat)
    (u : BookingUpdate) (b : Booking)
    (hb : get_booking_by_id db booking_id = some b) :
    update_booking db booking_id u =
      (some (applyUpdate b u),
       { db with bookings := db.bookings.map (fun x =>
           if x.booking_id == booking_id then applyUpdate b u else x) }) := by
  simp [update_booking, hb]

/-- Witness for C3 (amended): the overlapping update of booking 2 in `dbTwo`
goes through and stores the new interval. -/
theorem c3_amended_witness :
    update_booking dbTwo 2 { start_time := some 555, end_time := some 585, pending := none } =
      (some (applyUpdate bookingB
         { start_time := some 555, end_time := some 585, pending := none }),
       { dbTwo with bookings := dbTwo.bookings.map (fun x =>
           if x.booking_id == 2 then
             applyUpdate bookingB
               { start_time := some 555, end_time := some 585, pending := none }
           else x) }) :=
  c3_amended_update_skips_conflict_check dbTwo 2
    { start_time := some 555, end_time := some 585, pending := none } bookingB (by decide)

/-- Counterexample for C6: cancelling booking 1 of `dbA` deletes it; a second
cancel of the same id returns `False` at the service layer and 404 at the
route layer, not an idempotent success. -/
theorem c6_counterexample :
    cancel_booking (cancel_booking dbA 1).2 1 = (false, (cancel_booking dbA 1).2) ∧
    cancel_booking_route (cancel_booking dbA 1).2 7 true 1 = .error .notFound404 :=
  ⟨rfl, rfl⟩

/-- C6 (amended): cancellation is not idempotent — after a cancel, cancelling
the same id again fails (`False` from the service, mapped to an error by the
route) because the row was deleted; cancelling one reservation does leave
every other reservation in the store. -/
theorem c6_amended_second_cancel_fails (db : DB) (booking_id : Nat) (b : Booking)
    (hb : b ∈ db.bookings) (hne : b.booking_id ≠ booking_id) :
    cancel_booking (cancel_booking db booking_id).2 booking_id =
      (false, (cancel_booking db booking_id).2) ∧
    b ∈ (cancel_booking db booking_id).2.bookings := by
  constructor
  · cases hg : get_booking_by_id db booking_id with
    | none => simp [cancel_booking, hg]
    | some bb =>
      have hnone : get_booking_by_id
          { db with bookings := db.bookings.filter (fun x => x.booking_id != booking_id) }
          booking_id = none := by
        rw [get_booking_by_id, List.find?_eq_none]
        intro x hx
        rw [List.mem_filter] at hx
        simpa using hx.2
      simp [cancel_booking, hg, hnone]
  · cases hg : get_booking_by_id db booking_id with
    | none => simpa [cancel_booking, hg] using hb
    | some bb =>
      simp only [cancel_booking, hg]
      rw [List.mem_filter]
      exact ⟨hb, by simpa using hne⟩

/-- Witness for C6 (amended): in `dbTwo`, cancelling booking 1 twice fails the
second time, and booking 2 survives the cancellation. -/
theorem c6_amended_witness :
    cancel_booking (cancel_booking dbTwo 1).2 1 = (false, (cancel_booking dbTwo 1).2) ∧
    bookingB ∈ (cancel_booking dbTwo 1).2.bookings :=
  c6_amended_second_cancel_fails dbTwo 1 bookingB (by decide) (by decide)

/-- C7: a successful creation yields a reservation whose `pending` flag is
exactly the resolved resource's requires-approval attribute — true only for
a room whose loaded type has `approval = True`, false for desks and
approval-free rooms. -/
theorem c7_pending_iff_requires_approval (db : DB) (user_id : Nat)
    (bd : BookingCreate) (bk : Booking) (db' : DB)
    (hk : bd.resource_type = "desk" ∨ bd.resource_type = "room")
    (h : create_booking db user_id bd = (.ok bk, db')) :
    bk.pending = requires_approval db bd.resource_type bd.resource_id := by
  obtain ⟨rt, rid, st, et⟩ := bd
  dsimp only at hk h ⊢
  rcases hk with hk | hk <;> subst hk
  · cases hd : get_desk_by_id db rid with
    | none => simp [create_booking, hd] at h
    | some d =>
      by_cases hc : check_booking_conflict db "desk" rid st et none = true
      · simp [create_booking, hd, hc] at h
      · simp [create_booking, hd, hc, finishCreate, Prod.ext_iff] at h
        obtain ⟨h1, -⟩ := h
        subst h1
        simp [requires_approval]
  · cases hr : get_room_by_id db rid with
    | none => simp [create_booking, hr] at h
    | some r =>
      by_cases hc : check_booking_conflict db "room" rid st et none = true
      · simp [create_booking, hr, hc] at h
      · simp [create_booking, hr, hc, finishCreate, Prod.ext_iff] at h
        obtain ⟨h1, -⟩ := h
        subst h1
        simp only [requires_approval, hr]
        cases r.room_type with
        | none => simp
        | some t => simp

/-- Witness for C7: creating on room 5 (whose type requires approval) yields
a pending reservation matching `requires_approval`. -/
theorem c7_witness :
    bkCreatedRoom.pending = requires_approval dbRoom "room" 5 :=
  c7_pending_iff_requires_approval dbRoom 3 bcRoom bkCreatedRoom
    (create_booking dbRoom 3 bcRoom).2 (Or.inr rfl) rfl

/-- C10: a successful creation stores exactly one of `desk_id`/`room_id`,
the non-null one matching the requested kind and id, and the derived
`resource_type`/`resource_id` properties recover the requested kind and id
(resource ids are positive by the schema's `gt=0` validation, so Python
truthiness does not misfire). -/
theorem c10_created_row_resource_fields (db : DB) (user_id : Nat)
    (bd : BookingCreate) (bk : Booking) (db' : DB)
    (hk : bd.resource_type = "desk" ∨ bd.resource_type = "room")
    (hpos : 0 < bd.resource_id)
    (h : create_booking db user_id bd = (.ok bk, db')) :
    ((bd.resource_type = "desk" ∧ bk.desk_id = some bd.resource_id ∧ bk.room_id = none) ∨
     (bd.resource_type = "room" ∧ bk.room_id = some bd.resource_id ∧ bk.desk_id = none)) ∧
    bk.resourceTypeProp = bd.resource_type ∧
    bk.resourceIdProp = some bd.resource_id := by
  obtain ⟨rt, rid, st, et⟩ := bd
  dsimp only at hk hpos h ⊢
  rcases hk with hk | hk <;> subst hk
  · cases hd : get_desk_by_id db rid with
    | none => simp [create_booking, hd] at h
    | some d =>
      by_cases hc : check_booking_conflict db "desk" rid st et none = true
      · simp [create_booking, hd, hc] at h
      · simp [create_booking, hd, hc, finishCreate, Prod.ext_iff] at h
        obtain ⟨h1, -⟩ := h
        subst h1
        refine ⟨Or.inl ⟨rfl, rfl, rfl⟩, ?_, ?_⟩
        · simp [Booking.resourceTypeProp, truthyOpt]
          omega
        · simp only [Booking.resourceIdProp, truthyOpt]
          have : (rid != 0) = true := by simp; omega
          simp [this]
  · cases hr : get_room_by_id db rid with
    | none => simp [create_booking, hr] at h
    | some r =>
      by_cases hc : check_booking_conflict db "room" rid st et none = true
      · simp [create_booking, hr, hc] at h
      · simp [create_booking, hr, hc, finishCreate, Prod.ext_iff] at h
        obtain ⟨h1, -⟩ := h
        subst h1
        refine ⟨Or.inr ⟨rfl, rfl, rfl⟩, ?_, ?_⟩
        · simp [Booking.resourceTypeProp, truthyOpt]
        · simp [Booking.resourceIdProp, truthyOpt]

/-- Witness for C10: the row created for `bcA` (desk 1) has `desk_id = 1`,
`room_id = NULL`, and its derived properties recover kind `"desk"` and id 1. -/
theorem c10_witness :
    ((bcA.resource_type = "desk" ∧ bkCreatedA.desk_id = some bcA.resource_id ∧
        bkCreatedA.room_id = none) ∨
     (bcA.resource_type = "room" ∧ bkCreatedA.room_id = some bcA.resource_id ∧
        bkCreatedA.desk_id = none)) ∧
    bkCreatedA.resourceTypeProp = bcA.resource_type ∧
    bkCreatedA.resourceIdProp = some bcA.resource_id :=
  c10_created_row_resource_fields dbEmpty 7 bcA bkCreatedA dbAfterA
    (Or.inl rfl) (by decide) rfl

/-- Every grid label is a multiple of 30 minutes. -/
theorem all_slots_mod30 : ∀ m ∈ all_slots, m % 30 = 0 := by decide

/-- The marking loop from a position at or past the booking end marks
nothing. -/
theorem slotWalk_nil_of_ge (current endT : Nat) (h : endT ≤ current) :
    slotWalk current endT = [] := by
  rw [slotWalk]
  have h0 : endT - current = 0 := by omega
  rw [h0]
  rfl

/-- A marking loop whose position is not 30-minute aligned never lands on a
grid label, whatever the fuel. -/
theorem slotWalkAux_nil_of_unaligned (fuel : Nat) :
    ∀ current endT, current % 30 ≠ 0 → slotWalkAux fuel current endT = [] := by
  induction fuel with
  | zero => intro current endT _; rfl
  | succ n ih =>
    intro current endT h
    rw [slotWalkAux]
    by_cases hlt : current < endT
    · rw [if_pos hlt]
      have hnot : (current % 1440) ∉ all_slots := by
        intro hmem
        have h30 : (current % 1440) % 30 = 0 := all_slots_mod30 _ hmem
        rw [Nat.mod_mod_of_dvd _ (by norm_num)] at h30
        exact h h30
      rw [if_neg hnot]
      simpa using ih (current + 30) endT (by omega)
    · rw [if_neg hlt]

/-- A booking whose start minute is not 30-minute aligned marks no slots. -/
theorem slotWalk_nil_of_unaligned (current endT : Nat) (h : current % 30 ≠ 0) :
    slotWalk current endT = [] :=
  slotWalkAux_nil_of_unaligned _ current endT h

/-- A flat map all of whose pieces are empty is empty. -/
theorem flatMap_eq_nil_of {α β : Type} (l : List α) (f : α → List β)
    (h : ∀ x ∈ l, f x = []) : l.flatMap f = [] := by
  induction l with
  | nil => rfl
  | cons x xs ih =>
    rw [List.flatMap_cons, h x (by simp), List.nil_append]
    exact ih (fun y hy => h y (by simp [hy]))

/-- Filtering by non-membership in the empty list keeps everything. -/
theorem filter_not_contains_nil (l : List Nat) :
    l.filter (fun s => !(List.contains ([] : List Nat) s)) = l := by
  induction l with
  | nil => rfl
  | cons x xs ih => simp [List.filter_cons, ih, List.contains]

/-- When no fetched booking marks any slot, the availability response has an
empty booked list and the full grid available. -/
theorem availability_of_nil_marks (db : DB) (rt : String) (rid d : Nat)
    (hmap : (bookingsForDay db rt rid d).flatMap
        (fun b => slotWalk b.start_time b.end_time) = []) :
    (get_availability db rt rid d).booked_slots = [] ∧
    (get_availability db rt rid d).available_slots = all_slots := by
  constructor
  · simp only [get_availability, hmap]
    simp [sortAsc]
  · simp only [get_availability, hmap]
    simp only [List.dedup_nil]
    have hs : sortAsc [] = [] := rfl
    rw [hs]
    exact filter_not_contains_nil all_slots

/-- Counterexample for C4: the cross-midnight booking `[day0 23:00, day1
09:00)` on desk 1 intersects day 1 over `08:00`–`09:00`, yet querying day 1
reports no booked slots: the containment query drops any reservation that
starts before the queried day. -/
theorem c4_counterexample :
    (get_availability dbCross "desk" 1 1).booked_slots = [] ∧
    480 ∈ (get_availability dbCross "desk" 1 1).available_slots ∧
    510 ∈ (get_availability dbCross "desk" 1 1).available_slots := by decide

/-- C4 (amended): `get_availability` considers only reservations fully
contained in the queried day (`start >= 00:00` and `end <= 23:59:59.999999`);
any reservation on the resource that starts before the day or ends after it —
in particular one spanning midnight — is excluded by the query and marks no
slots at all, leaving the whole grid available. -/
theorem c4_amended_only_contained_reservations_marked (db : DB)
    (resource_type : String) (resource_id check_date : Nat)
    (hout : ∀ b ∈ db.bookings, matchesResource resource_type resource_id b = true →
      b.start_time < check_date * 1440 ∨ check_date * 1440 + 1439 < b.end_time) :
    bookingsForDay db resource_type resource_id check_date = [] ∧
    (get_availability db resource_type resource_id check_date).booked_slots = [] ∧
    (get_availability db resource_type resource_id check_date).available_slots = all_slots := by
  have hnil : bookingsForDay db resource_type resource_id check_date = [] := by
    rw [bookingsForDay, List.filter_eq_nil_iff]
    intro b hb
    simp only [Bool.and_eq_true, decide_eq_true_eq, not_and]
    rintro ⟨hm, hs⟩ he
    rcases hout b hb hm with h | h <;> omega
  have hav := availability_of_nil_marks db resource_type resource_id check_date
    (by rw [hnil]; rfl)
  exact ⟨hnil, hav.1, hav.2⟩

/-- Witness for C4 (amended): in `dbCross` the cross-midnight booking is
excluded from day 1's query, so day 1 reports no booked slots. -/
theorem c4_amended_witness :
    bookingsForDay dbCross "desk" 1 1 = [] ∧
    (get_availability dbCross "desk" 1 1).booked_slots = [] ∧
    (get_availability dbCross "desk" 1 1).available_slots = all_slots :=
  c4_amended_only_contained_reservations_marked dbCross "desk" 1 1 (by decide)

/-- Counterexample for C5: the grid-misaligned reservation `[09:15, 09:45)`
overlaps both the `09:00` and `09:30` grid slots, yet `get_availability`
marks neither — both remain available, refuting "partial-slot occupancy
rounds to booked". -/
theorem c5_counterexample :
    (get_availability db555 "desk" 1 0).booked_slots = [] ∧
    540 ∈ (get_availability db555 "desk" 1 0).available_slots ∧
    570 ∈ (get_availability db555 "desk" 1 0).available_slots := by decide

/-- C5 (amended): the marking loop walks from the reservation's own start in
30-minute steps and marks a slot only when the walk lands exactly on a grid
label; a reservation whose start minute offset is not a multiple of 30 never
lands on the grid and therefore marks no slots at all (e.g. `[09:15,09:45)`
leaves `09:00` and `09:30` available). -/
theorem c5_amended_unaligned_reservation_marks_nothing (db : DB)
    (resource_type : String) (resource_id check_date : Nat)
    (hmis : ∀ b ∈ db.bookings, b.start_time % 30 ≠ 0) :
    (get_availability db resource_type resource_id check_date).booked_slots = [] ∧
    (get_availability db resource_type resource_id check_date).available_slots = all_slots := by
  apply availability_of_nil_marks
  apply flatMap_eq_nil_of
  intro b hb
  rw [bookingsForDay, List.mem_filter] at hb
  exact slotWalk_nil_of_unaligned _ _ (hmis b hb.1)

/-- Witness for C5 (amended): applied to `db555`, whose only booking starts at
09:15. -/
theorem c5_amended_witness :
    (get_availability db555 "desk" 1 0).booked_slots = [] ∧
    (get_availability db555 "desk" 1 0).available_slots = all_slots :=
  c5_amended_unaligned_reservation_marks_nothing db555 "desk" 1 0 (by decide)

/-- C8: for a resource with zero reservations on the queried day,
`get_availability` returns an empty booked list and the full grid as
available, where the grid is the chronological list of 24 thirty-minute
slots from 08:00 to 20:00. -/
theorem c8_zero_reservations_full_grid (db : DB) (resource_type : String)
    (resource_id check_date : Nat)
    (hnone : ∀ b ∈ db.bookings, matchesResource resource_type resource_id b = true →
      b.end_time ≤ check_date * 1440 ∨ (check_date + 1) * 1440 ≤ b.start_time) :
    (get_availability db resource_type resource_id check_date).booked_slots = [] ∧
    (get_availability db resource_type resource_id check_date).available_slots = all_slots ∧
    all_slots = [480, 510, 540, 570, 600, 630, 660, 690, 720, 750, 780, 810,
                 840, 870, 900, 930, 960, 990, 1020, 1050, 1080, 1110, 1140, 1170] ∧
    all_slots.length = 24 := by
  have hav := availability_of_nil_marks db resource_type resource_id check_date ?_
  · exact ⟨hav.1, hav.2, by decide, by decide⟩
  · apply flatMap_eq_nil_of
    intro b hb
    rw [bookingsForDay, List.mem_filter] at hb
    obtain ⟨hmem, hp⟩ := hb
    simp only [Bool.and_eq_true, decide_eq_true_eq] at hp
    obtain ⟨⟨hm, hs⟩, he⟩ := hp
    rcases hnone b hmem hm with h | h
    · exact slotWalk_nil_of_ge _ _ (by omega)
    · exact slotWalk_nil_of_ge _ _ (by omega)

/-- Witness for C8: desk 1 in `dbA` has a booking on day 0 only, so querying
day 1 returns the full free grid. -/
theorem c8_witness :
    (get_availability dbA "desk" 1 1).booked_slots = [] ∧
    (get_availability dbA "desk" 1 1).available_slots = all_slots ∧
    all_slots = [480, 510, 540, 570, 600, 630, 660, 690, 720, 750, 780, 810,
                 840, 870, 900, 930, 960, 990, 1020, 1050, 1080, 1110, 1140, 1170] ∧
    all_slots.length = 24 :=
  c8_zero_reservations_full_grid dbA "desk" 1 1 (by decide)

/-- Counterexample for C9: with an empty resource catalog, the availability
endpoint does not produce a not-found error for desk 1 — it returns a normal
availability response with the placeholder name `desk-1`. -/
theorem c9_counterexample :
    check_availability dbNoResources "desk" 1 0 ≠ .error .notFound404 ∧
    check_availability dbNoResources "desk" 1 0 =
      .ok (get_availability dbNoResources "desk" 1 0) ∧
    (get_availability dbNoResources "desk" 1 0).resource_name = "desk-1" := by
  refine ⟨?_, rfl, rfl⟩
  intro hcon
  rw [show check_availability dbNoResources "desk" 1 0 =
      .ok (get_availability dbNoResources "desk" 1 0) from rfl] at hcon
  exact Except.noConfusion hcon

/-- C9 (amended): for a recognised resource kind, the availability endpoint
always succeeds with the service response — resource absence is never
reported as a not-found error (the service substitutes a placeholder name);
only an unrecognised kind is rejected, with a 400. -/
theorem c9_amended_availability_never_notfound (db : DB) (resource_type : String)
    (resource_id check_date : Nat)
    (hk : resource_type = "desk" ∨ resource_type = "room") :
    check_availability db resource_type resource_id check_date =
      .ok (get_availability db resource_type resource_id check_date) := by
  rcases hk with hk | hk <;> subst hk <;> simp [check_availability]

/-- Witness for C9 (amended): desk 1 is absent from `dbNoResources`, yet the
endpoint returns the availability response. -/
theorem c9_amended_witness :
    check_availability dbNoResources "desk" 1 0 =
      .ok (get_availability dbNoResources "desk" 1 0) :=
  c9_amended_availability_never_notfound dbNoResources "desk" 1 0 (Or.inl rfl)
